import Mathlib

/-!
Shallow embedding of `src/greetd/src/session/interface.rs`: the parent-side
session controller of greetd.  Stateful Rust code is embedded as explicit
state passing; the datagram socket is embedded as a scripted environment
(queues of send outcomes and receive outcomes plus a log of sent payloads),
so every operation is an executable Lean function on a `Session` state.
A Rust `panic!` is embedded as the `Outcome.fatal` result, distinct from
both success and a returned error.
-/

/-- Process identifiers (`nix::unistd::Pid`, a raw `i32`); embedded as `Int`. -/
abbrev RawPid := Int

/-- Signals used by the session child lifecycle (`nix::sys::signal::Signal`). -/
inductive Signal where
  | SIGTERM
  | SIGKILL
deriving Repr, DecidableEq

/-- Modelled from the spec: the prompt style carried by a `PamMessage`
(defined in `worker.rs`, which is not among the given sources; the spec only
says a `PamMessage` carries a style and a text).  No claim depends on the
individual variants. -/
inductive QuestionStyle where
  | visible
  | secret
  | info
  | errorMsg
deriving Repr, DecidableEq

/-- Controller-to-worker messages (`ParentToSessionChild`).  The variants and
their fields are exactly the ones constructed in `interface.rs`; the field
types are the ones of the values passed there (`String`, `Vec<String>`,
`usize`, `bool`). -/
inductive ParentToSessionChild where
  | initiateLogin (service : String) (cls : String) (user : String) (authenticate : Bool)
  | pamResponse (resp : String)
  | cancel
  | args (vt : Nat) (env : List String) (cmd : List String)
  | start
deriving Repr, DecidableEq

/-- Worker-to-controller messages (`SessionChildToParent`).  The variants are
exactly the ones matched in `interface.rs`.  The `error` payload is
`crate::error::Error`, whose definition is not among the given sources;
modelled from the spec as an inspectable error value, here a `String` (the
transport code builds errors from `format!` strings).  The `finalChildPid`
payload is cast in `interface.rs` with `as i32`, so it is wider than `i32`;
modelled from the spec as an unsigned raw pid (`Nat`). -/
inductive SessionChildToParent where
  | pamMessage (style : QuestionStyle) (msg : String)
  | success
  | error (e : String)
  | finalChildPid (rawPid : Nat)
deriving Repr, DecidableEq

/-- The Rust `as i32` cast applied to the unsigned `rawPid` payload in
`Session::start`: reduce modulo 2^32 and reinterpret as a signed 32-bit
value. -/
def castToI32 (raw : Nat) : Int :=
  let m : Nat := raw % 2 ^ 32
  if m < 2 ^ 31 then (m : Int) else (m : Int) - 2 ^ 32

/-- Modelled from the spec: the wire encoding of one controller-to-worker
message (a tagged-variant JSON encoding produced by `serde_json::to_vec`;
the serde derivations live in `worker.rs`, which is not among the given
sources).  String escaping is not modelled; no claim depends on the exact
bytes, only on the encoding being a function of the message value. -/
def jstr (s : String) : String := "\"" ++ s ++ "\""

/-- Modelled from the spec: JSON array of strings. -/
def jlist (l : List String) : String :=
  "[" ++ String.intercalate "," (l.map jstr) ++ "]"

/-- Modelled from the spec: serialization of `ParentToSessionChild`
(`serde_json::to_vec` over the tagged-variant types of `worker.rs`). -/
def serializeP2C : ParentToSessionChild → String
  | .initiateLogin service cls user authenticate =>
      "\x7b\"InitiateLogin\":\x7b\"service\":" ++ jstr service ++ ",\"class\":" ++ jstr cls ++
        ",\"user\":" ++ jstr user ++ ",\"authenticate\":" ++
        (if authenticate then "true" else "false") ++ "\x7d\x7d"
  | .pamResponse resp =>
      "\x7b\"PamResponse\":\x7b\"resp\":" ++ jstr resp ++ "\x7d\x7d"
  | .cancel => jstr "Cancel"
  | .args vt env cmd =>
      "\x7b\"Args\":\x7b\"vt\":" ++ toString vt ++ ",\"env\":" ++ jlist env ++
        ",\"cmd\":" ++ jlist cmd ++ "\x7d\x7d"
  | .start => jstr "Start"

/-- The controller's endpoint of the datagram channel, embedded as a scripted
environment.  `sendOutcomes` scripts the I/O outcome of successive sends
(`none` = success, `some e` = I/O failure; an empty script means success),
`recvOutcomes` scripts successive receives (each either a successfully
decoded message or a transport/decode error), `sent` logs the serialized
payloads successfully written, `recvCount` counts receive operations
performed, and `isOpen` records whether `shutdown` has been called. -/
structure Sock where
  sendOutcomes : List (Option String)
  recvOutcomes : List (Except String SessionChildToParent)
  sent : List String
  recvCount : Nat
  isOpen : Bool
deriving Repr

/-- `AsyncSend::send for ParentToSessionChild`: serialize the message and
write it as one datagram.  Serialization of these finite message values
cannot fail; an I/O failure is scripted by the environment and surfaced as
`unable to send message`. -/
def sockSend (m : ParentToSessionChild) (k : Sock) : Except String Unit × Sock :=
  match k.sendOutcomes with
  | some e :: rest =>
      (Except.error ("unable to send message: " ++ e), { k with sendOutcomes := rest })
  | none :: rest =>
      (Except.ok (), { k with sendOutcomes := rest, sent := k.sent ++ [serializeP2C m] })
  | [] => (Except.ok (), { k with sent := k.sent ++ [serializeP2C m] })

/-- `AsyncRecv::recv for SessionChildToParent`: read one datagram and decode
it.  The outcome (a decoded message, or a receive/decode error) is scripted
by the environment; an exhausted script is a receive error. -/
def sockRecv (k : Sock) : Except String SessionChildToParent × Sock :=
  match k.recvOutcomes with
  | r :: rest => (r, { k with recvOutcomes := rest, recvCount := k.recvCount + 1 })
  | [] =>
      (Except.error "unable to recieve message: channel exhausted",
        { k with recvCount := k.recvCount + 1 })

/-- `self.sock.shutdown(std::net::Shutdown::Both)`: close the channel for
both directions.  (In `interface.rs` the call is fallible via `?`; its
failure is not scripted here since no claim concerns it.) -/
def sockShutdown (k : Sock) : Sock := { k with isOpen := false }

/-- The result of a controller operation: a returned value, a returned
error, or a process abort (`panic!` in `interface.rs`). -/
inductive Outcome (α : Type) where
  | ok (a : α)
  | err (e : String)
  | fatal (msg : String)
deriving Repr, DecidableEq

/-- `SessionChild`: tracks the processes spawned by a session. -/
structure SessionChild where
  task : RawPid
  sub_task : RawPid
deriving Repr, DecidableEq

/-- `SessionChild::owns_pid`: check if this session has this pid. -/
def SessionChild.owns_pid (c : SessionChild) (pid : RawPid) : Bool :=
  c.task == pid || c.sub_task == pid

/-- The OS signal-delivery environment: `fails` scripts, per target and
signal, whether delivery fails (e.g. the process already exited); `log`
records every delivery attempt in order. -/
structure SigWorld where
  fails : RawPid → Signal → Bool
  log : List (RawPid × Signal)

/-- `nix::sys::signal::kill`: attempt to deliver `sig` to `pid`; the attempt
is always logged, and the result is an error when the environment says
delivery fails. -/
def sigDeliver (pid : RawPid) (sig : Signal) (w : SigWorld) : Except String Unit × SigWorld :=
  ((if w.fails pid sig then Except.error "signal delivery failed" else Except.ok ()),
    { w with log := w.log ++ [(pid, sig)] })

/-- `SessionChild::term`: send SIGTERM to the session child (the sub-task
only).  The delivery result is discarded (`let _ =` in the source), so the
operation itself cannot fail. -/
def SessionChild.term (c : SessionChild) (w : SigWorld) : Unit × SigWorld :=
  let rw := sigDeliver c.sub_task Signal.SIGTERM w
  ((), rw.2)

/-- `SessionChild::kill`: send SIGKILL to the sub-task and then to the
original task.  Both delivery results are discarded (`let _ =`), so the
operation itself cannot fail. -/
def SessionChild.kill (c : SessionChild) (w : SigWorld) : Unit × SigWorld :=
  let rw₁ := sigDeliver c.sub_task Signal.SIGKILL w
  let rw₂ := sigDeliver c.task Signal.SIGKILL rw₁.2
  ((), rw₂.2)

/-- `SessionState`: externally observable projection of the last received
worker message. -/
inductive SessionState where
  | Question (style : QuestionStyle) (msg : String)
  | Ready
deriving Repr, DecidableEq

/-- `Session`: a device to initiate a logged-in PAM session.  Owns the worker
pid, the socket, and the optional buffered last-received message. -/
structure Session where
  task : RawPid
  sock : Sock
  last_msg : Option SessionChildToParent
deriving Repr

/-- Helper: run a socket send inside a `Session` (the `msg.send(&mut
self.sock).await` pattern). -/
def Session.sendMsg (m : ParentToSessionChild) (s : Session) : Except String Unit × Session :=
  let rk := sockSend m s.sock
  (rk.1, { s with sock := rk.2 })

/-- `Session::initiate`: build the `InitiateLogin` message and send it.
Note: the source does not touch `last_msg` here. -/
def Session.initiate (service cls user : String) (authenticate : Bool) (s : Session) :
    Except String Unit × Session :=
  Session.sendMsg (.initiateLogin service cls user authenticate) s

/-- `Session::get_state`: take the buffered message if any, otherwise receive
one; re-buffer it; then project it to a `SessionState`, surface its error, or
abort on an unexpected variant. -/
def Session.get_state (s : Session) : Outcome SessionState × Session :=
  match s.last_msg with
  | some msg =>
      let s := { s with last_msg := some msg }
      match msg with
      | .pamMessage style m => (.ok (.Question style m), s)
      | .success => (.ok .Ready, s)
      | .error e => (.err e, s)
      | .finalChildPid _ => (.fatal "unexpected message from session worker", s)
  | none =>
      let rk := sockRecv s.sock
      let s := { s with sock := rk.2, last_msg := none }
      match rk.1 with
      | .error e => (.err e, s)
      | .ok msg =>
          let s := { s with last_msg := some msg }
          match msg with
          | .pamMessage style m => (.ok (.Question style m), s)
          | .success => (.ok .Ready, s)
          | .error e => (.err e, s)
          | .finalChildPid _ => (.fatal "unexpected message from session worker", s)

/-- `Session::cancel`: clear the buffered message and send `Cancel`. -/
def Session.cancel (s : Session) : Except String Unit × Session :=
  let s := { s with last_msg := none }
  Session.sendMsg .cancel s

/-- `Session::post_answer`: clear the buffered message and send either
`PamResponse` (for `Some`) or `Cancel` (for `None`). -/
def Session.post_answer (answer : Option String) (s : Session) :
    Except String Unit × Session :=
  let s := { s with last_msg := none }
  let m := match answer with
    | some resp => ParentToSessionChild.pamResponse resp
    | none => ParentToSessionChild.cancel
  Session.sendMsg m s

/-- `Session::send_args`: send `Args`, receive the reply, buffer it, and
return success, the worker's error, or abort on an unexpected variant. -/
def Session.send_args (cmd env : List String) (vt : Nat) (s : Session) :
    Outcome Unit × Session :=
  let rs := Session.sendMsg (.args vt env cmd) s
  match rs.1 with
  | .error e => (.err e, rs.2)
  | .ok _ =>
      let s := rs.2
      let rk := sockRecv s.sock
      let s := { s with sock := rk.2 }
      match rk.1 with
      | .error e => (.err e, s)
      | .ok msg =>
          let s := { s with last_msg := some msg }
          match msg with
          | .success => (.ok (), s)
          | .error e => (.err e, s)
          | .pamMessage _ _ => (.fatal "unexpected message from session worker", s)
          | .finalChildPid _ => (.fatal "unexpected message from session worker", s)

/-- `Session::start`: send `Start`, receive the reply, shut the socket down
for both directions, and then inspect the reply: return the worker's error,
build the `SessionChild` from a `FinalChildPid`, or abort on an unexpected
variant.  Note: the source does not touch `last_msg` here. -/
def Session.start (s : Session) : Outcome SessionChild × Session :=
  let rs := Session.sendMsg .start s
  match rs.1 with
  | .error e => (.err e, rs.2)
  | .ok _ =>
      let s := rs.2
      let rk := sockRecv s.sock
      let s := { s with sock := sockShutdown rk.2 }
      match rk.1 with
      | .error e => (.err e, s)
      | .ok msg =>
          match msg with
          | .error e => (.err e, s)
          | .finalChildPid raw =>
              (.ok { task := s.task, sub_task := castToI32 raw }, s)
          | .pamMessage _ _ => (.fatal "unexpected message from session worker", s)
          | .success => (.fatal "unexpected message from session worker", s)

/-! ## Shared helper lemmas and example states -/

theorem sendMsg_last_msg (m : ParentToSessionChild) (s : Session) :
    (Session.sendMsg m s).2.last_msg = s.last_msg := by
  rcases s with ⟨t, ⟨so, ro, st, rc, op⟩, l⟩
  rcases so with _ | ⟨(_ | e), rest⟩ <;> rfl

/-- A fresh socket with empty scripts (all sends succeed, no reply queued). -/
def exSockEmpty : Sock := ⟨[], [], [], 0, true⟩

/-- A session holding a buffered `Success` reply. -/
def exBufSuccess : Session := ⟨1, exSockEmpty, some SessionChildToParent.success⟩

/-- A session whose next receive yields the worker error
`authentication failure`. -/
def exErrRecv : Session :=
  ⟨1, ⟨[], [Except.ok (SessionChildToParent.error "authentication failure")], [], 0, true⟩, none⟩

/-! ## Claim theorems -/

/-- C1: `post_answer(None)` has exactly the same effect as `cancel`: as
functions on the session state (which includes the buffered last-received
message and the log of serialized outgoing payloads), the two operations are
equal, so both clear the buffer, send the byte-identical serialized `Cancel`
request, and return the same result. -/
theorem post_answer_none_eq_cancel (s : Session) :
    Session.post_answer none s = Session.cancel s := rfl

/-- C2: when a worker reply is buffered, `get_state` returns it, re-buffers
it, and leaves the socket untouched; a second `get_state` with no
intervening send returns the same result and also performs no receive (the
socket, including its receive count, is unchanged by both calls). -/
theorem get_state_buffered_idempotent (s : Session) (m : SessionChildToParent)
    (h : s.last_msg = some m) :
    (Session.get_state (Session.get_state s).2).1 = (Session.get_state s).1
    ∧ (Session.get_state s).2.last_msg = some m
    ∧ (Session.get_state s).2.sock = s.sock
    ∧ (Session.get_state (Session.get_state s).2).2.sock = s.sock := by
  cases m <;> simp [Session.get_state, h]

/-- C2 witness: a session with a buffered `Success` reply. -/
theorem get_state_buffered_idempotent_witness :
    (Session.get_state (Session.get_state exBufSuccess).2).1
        = (Session.get_state exBufSuccess).1
    ∧ (Session.get_state exBufSuccess).2.last_msg = some SessionChildToParent.success
    ∧ (Session.get_state exBufSuccess).2.sock = exBufSuccess.sock
    ∧ (Session.get_state (Session.get_state exBufSuccess).2).2.sock = exBufSuccess.sock :=
  get_state_buffered_idempotent exBufSuccess SessionChildToParent.success rfl

/-- C3 counterexample: `initiate` is a request-sending operation, yet it does
not clear the buffered last-received message: issued on a session holding a
buffered `Success`, the buffer is still non-empty afterwards. -/
theorem initiate_does_not_clear_buffer :
    (Session.initiate "login" "greeter" "alice" true
        ⟨1, ⟨[], [], [], 0, true⟩, some SessionChildToParent.success⟩).2.last_msg
      ≠ none := by
  simp [Session.initiate, Session.sendMsg, sockSend]

/-- C3 (amended): `cancel` and `post_answer` clear the buffered
last-received message as part of issuing their request; `initiate` and
`start` leave the buffer exactly as it was; and `send_args` does not clear
it when issuing its request: its run either leaves the buffer unchanged
(when no reply is consumed) or overwrites it with the reply it received —
it never empties it. -/
theorem request_buffer_discipline (s : Session) (answer : Option String)
    (service cls user : String) (authenticate : Bool)
    (cmd env : List String) (vt : Nat) :
    (Session.cancel s).2.last_msg = none
    ∧ (Session.post_answer answer s).2.last_msg = none
    ∧ (Session.initiate service cls user authenticate s).2.last_msg = s.last_msg
    ∧ (Session.start s).2.last_msg = s.last_msg
    ∧ ((Session.send_args cmd env vt s).2.last_msg = s.last_msg
        ∨ ∃ m, s.sock.recvOutcomes.head? = some (Except.ok m)
            ∧ (Session.send_args cmd env vt s).2.last_msg = some m) := by
  refine ⟨?_, ?_, ?_, ?_, ?_⟩
  · simpa using sendMsg_last_msg ParentToSessionChild.cancel { s with last_msg := none }
  · rcases answer with _ | a <;>
      simpa [Session.post_answer] using
        sendMsg_last_msg ParentToSessionChild.cancel { s with last_msg := none }
  · exact sendMsg_last_msg _ s
  · rcases s with ⟨t, ⟨so, ro, st, rc, op⟩, l⟩
    rcases so with _ | ⟨(_ | e), rest⟩ <;>
      rcases ro with _ | ⟨(r | m), rrest⟩ <;>
      first
        | rfl
        | (cases m <;> rfl)
  · rcases s with ⟨t, ⟨so, ro, st, rc, op⟩, l⟩
    rcases so with _ | ⟨(_ | e), rest⟩ <;>
      rcases ro with _ | ⟨(r | m), rrest⟩ <;>
      first
        | (left; rfl)
        | (right; exact ⟨m, rfl, by cases m <;> rfl⟩)

/-- C4: a worker reply `Error(e)` is propagated verbatim by the operation
that consumes it — `get_state` (whether the error was buffered or freshly
received), `send_args` and `start` all return `e` unchanged — and that
operation sends no retry or further request: `get_state` sends nothing, and
`send_args`/`start` each send exactly their one request. -/
theorem worker_error_propagated_verbatim (s₁ s₂ s₃ : Session) (e : String)
    (cmd env : List String) (vt : Nat)
    (t₂ t₃ : List (Except String SessionChildToParent))
    (h₁ : s₁.last_msg = some (SessionChildToParent.error e))
    (h₂l : s₂.last_msg = none)
    (h₂r : s₂.sock.recvOutcomes = Except.ok (SessionChildToParent.error e) :: t₂)
    (h₃s : s₃.sock.sendOutcomes = [])
    (h₃r : s₃.sock.recvOutcomes = Except.ok (SessionChildToParent.error e) :: t₃) :
    ((Session.get_state s₁).1 = Outcome.err e
      ∧ (Session.get_state s₁).2.sock.sent = s₁.sock.sent)
    ∧ ((Session.get_state s₂).1 = Outcome.err e
      ∧ (Session.get_state s₂).2.sock.sent = s₂.sock.sent)
    ∧ ((Session.send_args cmd env vt s₃).1 = Outcome.err e
      ∧ (Session.send_args cmd env vt s₃).2.sock.sent
          = s₃.sock.sent ++ [serializeP2C (ParentToSessionChild.args vt env cmd)])
    ∧ ((Session.start s₃).1 = Outcome.err e
      ∧ (Session.start s₃).2.sock.sent
          = s₃.sock.sent ++ [serializeP2C ParentToSessionChild.start]) := by
  refine ⟨⟨?_, ?_⟩, ⟨?_, ?_⟩, ⟨?_, ?_⟩, ⟨?_, ?_⟩⟩ <;>
    simp [Session.get_state, Session.send_args, Session.start, Session.sendMsg,
      sockSend, sockRecv, sockShutdown, h₁, h₂l, h₂r, h₃s, h₃r]

/-- C4 witness: the error `authentication failure`, once buffered and once
freshly received, propagated by all three consuming operations. -/
theorem worker_error_propagated_verbatim_witness :
    (let eb : Session := ⟨1, exSockEmpty,
        some (SessionChildToParent.error "authentication failure")⟩;
    ((Session.get_state eb).1 = Outcome.err "authentication failure"
      ∧ (Session.get_state eb).2.sock.sent = eb.sock.sent)
    ∧ ((Session.get_state exErrRecv).1 = Outcome.err "authentication failure"
      ∧ (Session.get_state exErrRecv).2.sock.sent = exErrRecv.sock.sent)
    ∧ ((Session.send_args ["/bin/sh"] [] 1 exErrRecv).1
          = Outcome.err "authentication failure"
      ∧ (Session.send_args ["/bin/sh"] [] 1 exErrRecv).2.sock.sent
          = exErrRecv.sock.sent
              ++ [serializeP2C (ParentToSessionChild.args 1 [] ["/bin/sh"])])
    ∧ ((Session.start exErrRecv).1 = Outcome.err "authentication failure"
      ∧ (Session.start exErrRecv).2.sock.sent
          = exErrRecv.sock.sent ++ [serializeP2C ParentToSessionChild.start])) :=
  worker_error_propagated_verbatim
    ⟨1, exSockEmpty, some (SessionChildToParent.error "authentication failure")⟩
    exErrRecv exErrRecv "authentication failure" ["/bin/sh"] [] 1 [] []
    rfl rfl rfl rfl rfl

/-- C5: a worker reply whose variant is not valid for the step consuming it
makes that operation abort the process instead of returning any value:
`get_state` on a `FinalChildPid` — whether received fresh from the channel
(the desynchronization case) or found buffered — `send_args` on a
`PamMessage` or `FinalChildPid`, and `start` on a `PamMessage` or `Success`
all end in the fatal `panic` outcome. -/
theorem unexpected_reply_aborts (s₀ s₁ s₂ s₃ : Session) (p₀ p : Nat)
    (m₂ m₃ : SessionChildToParent)
    (cmd env : List String) (vt : Nat)
    (t₀ t₂ t₃ : List (Except String SessionChildToParent))
    (h₀l : s₀.last_msg = none)
    (h₀r : s₀.sock.recvOutcomes = Except.ok (SessionChildToParent.finalChildPid p₀) :: t₀)
    (h₁ : s₁.last_msg = some (SessionChildToParent.finalChildPid p))
    (h₂s : s₂.sock.sendOutcomes = [])
    (h₂r : s₂.sock.recvOutcomes = Except.ok m₂ :: t₂)
    (hm₂ : (∃ style q, m₂ = SessionChildToParent.pamMessage style q)
          ∨ ∃ q, m₂ = SessionChildToParent.finalChildPid q)
    (h₃s : s₃.sock.sendOutcomes = [])
    (h₃r : s₃.sock.recvOutcomes = Except.ok m₃ :: t₃)
    (hm₃ : (∃ style q, m₃ = SessionChildToParent.pamMessage style q)
          ∨ m₃ = SessionChildToParent.success) :
    (Session.get_state s₀).1 = Outcome.fatal "unexpected message from session worker"
    ∧ (Session.get_state s₁).1 = Outcome.fatal "unexpected message from session worker"
    ∧ (Session.send_args cmd env vt s₂).1
        = Outcome.fatal "unexpected message from session worker"
    ∧ (Session.start s₃).1 = Outcome.fatal "unexpected message from session worker" := by
  refine ⟨?_, ?_, ?_, ?_⟩
  · simp [Session.get_state, sockRecv, h₀l, h₀r]
  · simp [Session.get_state, h₁]
  · rcases hm₂ with ⟨style, q, rfl⟩ | ⟨q, rfl⟩ <;>
      simp [Session.send_args, Session.sendMsg, sockSend, sockRecv, h₂s, h₂r]
  · rcases hm₃ with ⟨style, q, rfl⟩ | rfl <;>
      simp [Session.start, Session.sendMsg, sockSend, sockRecv, sockShutdown, h₃s, h₃r]

/-- C5 witness: a `FinalChildPid 11` received fresh from the channel by
`get_state` (the desynchronization case), a buffered `FinalChildPid 7` for
`get_state`, a received `FinalChildPid 9` for `send_args`, and a received
`Success` for `start`. -/
theorem unexpected_reply_aborts_witness :
    (Session.get_state
        ⟨1, ⟨[], [Except.ok (SessionChildToParent.finalChildPid 11)], [], 0, true⟩, none⟩).1
      = Outcome.fatal "unexpected message from session worker"
    ∧ (Session.get_state
        ⟨1, exSockEmpty, some (SessionChildToParent.finalChildPid 7)⟩).1
      = Outcome.fatal "unexpected message from session worker"
    ∧ (Session.send_args ["/bin/sh"] [] 1
        ⟨1, ⟨[], [Except.ok (SessionChildToParent.finalChildPid 9)], [], 0, true⟩, none⟩).1
      = Outcome.fatal "unexpected message from session worker"
    ∧ (Session.start
        ⟨1, ⟨[], [Except.ok SessionChildToParent.success], [], 0, true⟩, none⟩).1
      = Outcome.fatal "unexpected message from session worker" :=
  unexpected_reply_aborts
    ⟨1, ⟨[], [Except.ok (SessionChildToParent.finalChildPid 11)], [], 0, true⟩, none⟩
    ⟨1, exSockEmpty, some (SessionChildToParent.finalChildPid 7)⟩
    ⟨1, ⟨[], [Except.ok (SessionChildToParent.finalChildPid 9)], [], 0, true⟩, none⟩
    ⟨1, ⟨[], [Except.ok SessionChildToParent.success], [], 0, true⟩, none⟩
    11 7 (SessionChildToParent.finalChildPid 9) SessionChildToParent.success
    ["/bin/sh"] [] 1 [] [] []
    rfl rfl rfl rfl rfl (Or.inr ⟨9, rfl⟩) rfl rfl (Or.inr rfl)

/-- C6: when `start` receives `FinalChildPid p` (with `p` in valid pid
range, so the `as i32` cast is the identity), the socket has been shut down
before `start` returns, and the returned handle records exactly the original
worker task pid and `sub_task = p`, so `owns_pid p` holds on it. -/
theorem start_final_child_pid (s : Session) (p : Nat)
    (t : List (Except String SessionChildToParent))
    (hs : s.sock.sendOutcomes = [])
    (hr : s.sock.recvOutcomes = Except.ok (SessionChildToParent.finalChildPid p) :: t)
    (hp : p < 2 ^ 31) :
    (Session.start s).1 = Outcome.ok { task := s.task, sub_task := (p : Int) }
    ∧ (Session.start s).2.sock.isOpen = false
    ∧ SessionChild.owns_pid { task := s.task, sub_task := (p : Int) } (p : Int) = true := by
  have hcast : castToI32 p = (p : Int) := by
    simp only [castToI32]
    split <;> omega
  refine ⟨?_, ?_, ?_⟩
  · simp [Session.start, Session.sendMsg, sockSend, sockRecv, sockShutdown, hs, hr, hcast]
  · simp [Session.start, Session.sendMsg, sockSend, sockRecv, sockShutdown, hs, hr]
  · simp [SessionChild.owns_pid]

/-- C6 witness: the spec's scenario, `FinalChildPid 4242`. -/
theorem start_final_child_pid_witness :
    (let s : Session :=
        ⟨1, ⟨[], [Except.ok (SessionChildToParent.finalChildPid 4242)], [], 0, true⟩, none⟩;
    (Session.start s).1 = Outcome.ok { task := s.task, sub_task := ((4242 : Nat) : Int) }
    ∧ (Session.start s).2.sock.isOpen = false
    ∧ SessionChild.owns_pid { task := s.task, sub_task := ((4242 : Nat) : Int) }
        ((4242 : Nat) : Int) = true) :=
  start_final_child_pid
    ⟨1, ⟨[], [Except.ok (SessionChildToParent.finalChildPid 4242)], [], 0, true⟩, none⟩
    4242 [] rfl rfl (by norm_num)

/-- C7: `owns_pid pid` is true exactly when `pid` equals the handle's
recorded task or its recorded sub-task, and false for every other pid. -/
theorem owns_pid_iff (c : SessionChild) (pid : RawPid) :
    SessionChild.owns_pid c pid = true ↔ (pid = c.task ∨ pid = c.sub_task) := by
  unfold SessionChild.owns_pid
  simp only [Bool.or_eq_true, beq_iff_eq]
  constructor
  · rintro (h | h)
    · exact Or.inl h.symm
    · exact Or.inr h.symm
  · rintro (h | h)
    · exact Or.inl h.symm
    · exact Or.inr h.symm

/-- C8: `term` attempts exactly one delivery, SIGTERM to the sub-task, and
`kill` attempts exactly two, SIGKILL to the sub-task and then SIGKILL to the
original task: the delivery log records these and nothing else. -/
theorem term_kill_signal_targets (c : SessionChild) (w : SigWorld) :
    (SessionChild.term c w).2.log = w.log ++ [(c.sub_task, Signal.SIGTERM)]
    ∧ (SessionChild.kill c w).2.log
        = w.log ++ [(c.sub_task, Signal.SIGKILL), (c.task, Signal.SIGKILL)] := by
  constructor
  · simp [SessionChild.term, sigDeliver]
  · simp [SessionChild.kill, sigDeliver]

/-- C9: even when the environment makes every relevant signal delivery fail
(the delivery attempts return errors), `term` and `kill` still return
successfully: the errors are swallowed and neither operation has a failure
outcome. -/
theorem term_kill_swallow_delivery_errors (c : SessionChild) (w : SigWorld)
    (hterm : w.fails c.sub_task Signal.SIGTERM = true)
    (hkill : w.fails c.sub_task Signal.SIGKILL = true) :
    (sigDeliver c.sub_task Signal.SIGTERM w).1 = Except.error "signal delivery failed"
    ∧ (sigDeliver c.sub_task Signal.SIGKILL w).1 = Except.error "signal delivery failed"
    ∧ (SessionChild.term c w).1 = () ∧ (SessionChild.kill c w).1 = () := by
  refine ⟨?_, ?_, rfl, rfl⟩ <;> simp [sigDeliver, hterm, hkill]

/-- C9 witness: a world in which every delivery fails (the targets already
exited); `term` and `kill` still complete. -/
theorem term_kill_swallow_delivery_errors_witness :
    (sigDeliver (2 : RawPid) Signal.SIGTERM ⟨fun _ _ => true, []⟩).1
        = Except.error "signal delivery failed"
    ∧ (sigDeliver (2 : RawPid) Signal.SIGKILL ⟨fun _ _ => true, []⟩).1
        = Except.error "signal delivery failed"
    ∧ (SessionChild.term ⟨1, 2⟩ ⟨fun _ _ => true, []⟩).1 = ()
    ∧ (SessionChild.kill ⟨1, 2⟩ ⟨fun _ _ => true, []⟩).1 = () :=
  term_kill_swallow_delivery_errors ⟨1, 2⟩ ⟨fun _ _ => true, []⟩ rfl rfl

/-- C10: `start` shuts the socket down before inspecting the received reply,
so the channel is closed on every reply path: for an arbitrary received
reply the socket ends closed, and in particular when the worker replies
`Error(e)`, `start` returns `e` with the channel already shut down. -/
theorem start_shutdown_on_every_reply (s₁ s₂ : Session) (m : SessionChildToParent)
    (e : String) (t₁ t₂ : List (Except String SessionChildToParent))
    (h₁s : s₁.sock.sendOutcomes = [])
    (h₁r : s₁.sock.recvOutcomes = Except.ok m :: t₁)
    (h₂s : s₂.sock.sendOutcomes = [])
    (h₂r : s₂.sock.recvOutcomes = Except.ok (SessionChildToParent.error e) :: t₂) :
    (Session.start s₁).2.sock.isOpen = false
    ∧ (Session.start s₂).1 = Outcome.err e
    ∧ (Session.start s₂).2.sock.isOpen = false := by
  refine ⟨?_, ?_, ?_⟩
  · cases m <;>
      simp [Session.start, Session.sendMsg, sockSend, sockRecv, sockShutdown, h₁s, h₁r]
  · simp [Session.start, Session.sendMsg, sockSend, sockRecv, sockShutdown, h₂s, h₂r]
  · simp [Session.start, Session.sendMsg, sockSend, sockRecv, sockShutdown, h₂s, h₂r]

/-- C10 witness: an unexpected `Success` reply still leaves the channel
closed, and an `Error` reply is returned with the channel closed. -/
theorem start_shutdown_on_every_reply_witness :
    (Session.start
        ⟨1, ⟨[], [Except.ok SessionChildToParent.success], [], 0, true⟩, none⟩).2.sock.isOpen
      = false
    ∧ (Session.start exErrRecv).1 = Outcome.err "authentication failure"
    ∧ (Session.start exErrRecv).2.sock.isOpen = false :=
  start_shutdown_on_every_reply
    ⟨1, ⟨[], [Except.ok SessionChildToParent.success], [], 0, true⟩, none⟩
    exErrRecv SessionChildToParent.success "authentication failure" [] []
    rfl rfl rfl rfl
